import Mathlib

/-!
Shallow embedding of the table-analysis core of this repository
(`table_analysis.py` and the analysis part of `script.py`).

Modelling conventions:
* Python dicts are ordered association lists (`List (κ × ν)`), matching the
  insertion-order semantics of `dict` that the code relies on.
* Cell values are a closed inductive `Cell` (numbers and strings), and the
  external collaborator `NumericParser(...).parse_numeric()` is a parameter
  `parse : Cell → Option ℚ` where `none` models the NaN sentinel.
* The external collaborator `pycognaize.model.Model.matches` is a parameter
  `M : Tag → Tag → ℚ → Bool`, and `assign_indices_to_tables` is a parameter
  `aI : List Entity → List (TIdx × Entity)`.
* Floating-point arithmetic is idealised as exact arithmetic: `ℚ` for cell
  values and means, `ℝ` for the standard deviation (`np.std` takes a real
  square root).  `np.round(x, 2)` is modelled as round-half-to-even at two
  decimal places.
* Python exceptions are modelled by `Except PyErr`.
-/

namespace TableAnalysis

/-- A table/field cell value: numeric or textual. -/
inductive Cell where
  | num (q : ℚ)
  | str (s : String)
deriving DecidableEq

/-- A tag: a region annotation carrying a page number and (for tables)
the content grid exposed as `.df` (row-major list of rows of cells). -/
structure Tag where
  page_number : ℤ
  df : List (List Cell)
deriving DecidableEq

/-- A field or table instance: `.tags` (possibly empty) and a scalar
`.value` (unused for tables). -/
structure Entity where
  tags : List Tag
  value : Cell
deriving DecidableEq

/-- A document: an identifier and the ordered mapping `document.x` from
category (python) name to the list of instances under that category. -/
structure Document where
  id : String
  x : List (String × List Entity)
deriving DecidableEq

/-- `TableIndex`: the composite (page number, ordinal) key produced by
`assign_indices_to_tables`; `get_table_results` destructures it as
`page, table_idx = idx`. -/
abbrev TIdx := ℤ × ℕ

/-- Python exception classes reachable in the analysis code paths. -/
inductive PyErr where
  | keyError
  | valueError
  | typeError
deriving DecidableEq

/-- Ordered-dict lookup on an association list (first binding wins,
as in a Python dict where keys are unique anyway). -/
def alookup {κ ν : Type} [DecidableEq κ] : List (κ × ν) → κ → Option ν
  | [], _ => none
  | (k, v) :: rest, a => if k = a then some v else alookup rest a

/-- `key in dict` test. -/
def containsKey {κ ν : Type} [DecidableEq κ] (l : List (κ × ν)) (a : κ) : Bool :=
  (alookup l a).isSome

/-- `entity.tags[0]`; every call site in the code guards that `tags` is
nonempty, so the default is never observed on the modelled paths. -/
def firstTag (e : Entity) : Tag :=
  e.tags.headD ⟨0, []⟩

/-! ### Aggregator: `get_table_values` (numeric extraction) -/

/-- Inner loop of `get_table_values`: `for idx, value in enumerate(row)`
with `continue` on ignored columns and on cells parsing to NaN, appending
parsed values to the running accumulator. -/
def scanRow (parse : Cell → Option ℚ) (ignored : List ℕ) :
    ℕ → List Cell → List ℚ → List ℚ
  | _, [], acc => acc
  | i, c :: cs, acc =>
    if i ∈ ignored then scanRow parse ignored (i + 1) cs acc
    else
      match parse c with
      | none => scanRow parse ignored (i + 1) cs acc
      | some v => scanRow parse ignored (i + 1) cs (acc ++ [v])

/-- `TableAnalyzer.get_table_values`: row-major traversal of the grid,
skipping ignored columns and NaN cells; `ignored_columns` defaults to the
empty list when `None` is passed. -/
def get_table_values (parse : Cell → Option ℚ) (table_df : List (List Cell))
    (ignored_columns : Option (List ℕ)) : List ℚ :=
  table_df.foldl (fun acc row => scanRow parse (ignored_columns.getD []) 0 row acc) []

/-- `extractNumericValues` as the spec words it: for every cell in the grid
(row-major), skip ignored columns, parse, drop not-a-number, keep the
successfully parsed values in encounter order.  Spec-side definition for
comparison with `get_table_values`. -/
def extractNumericValues_spec (parse : Cell → Option ℚ) (grid : List (List Cell))
    (ignored : List ℕ) : List ℚ :=
  (grid.map (fun row =>
    row.enum.filterMap (fun p => if p.1 ∈ ignored then none else parse p.2))).flatten

/-- A concrete stand-in for the external `NumericParser` collaborator on the
cells the spec's example uses: numbers parse to themselves, the string
"2.0" parses to 2, other strings (like "x" and "NaN") give the NaN
sentinel. -/
def sampleParse : Cell → Option ℚ
  | .num q => some q
  | .str s => if s = "2.0" then some 2 else none

lemma scanRow_eq (parse : Cell → Option ℚ) (ignored : List ℕ) :
    ∀ (row : List Cell) (i : ℕ) (acc : List ℚ),
      scanRow parse ignored i row acc =
        acc ++ (List.enumFrom i row).filterMap
          (fun p => if p.1 ∈ ignored then none else parse p.2)
  | [], i, acc => by simp [scanRow, List.enumFrom]
  | c :: cs, i, acc => by
    by_cases hig : i ∈ ignored
    · simp [scanRow, hig, List.enumFrom, scanRow_eq parse ignored cs (i + 1) acc]
    · cases hp : parse c with
      | none =>
        simp [scanRow, hig, hp, List.enumFrom, scanRow_eq parse ignored cs (i + 1) acc]
      | some v =>
        simp [scanRow, hig, hp, List.enumFrom,
          scanRow_eq parse ignored cs (i + 1) (acc ++ [v])]

lemma get_table_values_foldl (parse : Cell → Option ℚ) (ignored : List ℕ) :
    ∀ (grid : List (List Cell)) (acc : List ℚ),
      grid.foldl (fun acc row => scanRow parse ignored 0 row acc) acc =
        acc ++ (grid.map (fun row =>
          row.enum.filterMap (fun p => if p.1 ∈ ignored then none else parse p.2))).flatten
  | [], acc => by simp
  | row :: grid, acc => by
    simp only [List.foldl_cons, List.map_cons, List.flatten]
    rw [get_table_values_foldl parse ignored grid, scanRow_eq, List.enum]
    simp [List.append_assoc]

/-! ### Table Indexer and Field-Table Matcher -/

/-- The state mutated by `check_field_value_in_table`:
`self.tagged_tables` (referenced tables) and
`self.fields_outside_of_tables` (unmatched fields per python name). -/
structure MatchState where
  tagged_tables : List (TIdx × Entity)
  fields_outside : List (String × List (ℤ × Cell))
deriving DecidableEq

/-- The instance attributes of `TableAnalyzer`. -/
structure AnalyzerState where
  table_values : Option (List (TIdx × List ℚ))
  tagged_tables : List (TIdx × Entity)
  tables : Option (List (TIdx × Entity))
  fields_outside_of_tables : List (String × List (ℤ × Cell))
  table_name : String
  threshold : ℚ
  document : Option Document
deriving DecidableEq

/-- `TableAnalyzer.__init__(table_py_name, threshold)`. -/
def TableAnalyzer_init (table_py_name : String) (threshold : ℚ) : AnalyzerState :=
  { table_values := none
  , tagged_tables := []
  , tables := none
  , fields_outside_of_tables := []
  , table_name := table_py_name
  , threshold := threshold
  , document := none }

/-- `TableAnalyzer.get_table_dict`: looks the table category up in
`document.x` (a missing key raises `KeyError`), drops tables without tags
(warning diagnostic), and hands the rest to the external
`assign_indices_to_tables` collaborator `aI`. -/
def get_table_dict (aI : List Entity → List (TIdx × Entity))
    (doc : Document) (table_name : String) : Except PyErr (List (TIdx × Entity)) :=
  match alookup doc.x table_name with
  | none => .error .keyError
  | some ts => .ok (aI (ts.filter (fun t => !t.tags.isEmpty)))

/-- `if idx not in self.tagged_tables: self.tagged_tables[idx] = table`. -/
def insertIfAbsent (l : List (TIdx × Entity)) (i : TIdx) (t : Entity) :
    List (TIdx × Entity) :=
  if containsKey l i then l else l ++ [(i, t)]

/-- Appending `(page, value)` to the unmatched dict under `py_name`,
creating the key at the end if absent (Python dict insertion order). -/
def appendEntry (l : List (String × List (ℤ × Cell))) (k : String) (v : ℤ × Cell) :
    List (String × List (ℤ × Cell)) :=
  if containsKey l k then l.map (fun p => if p.1 = k then (p.1, p.2 ++ [v]) else p)
  else l ++ [(k, [v])]

/-- `TableAnalyzer.check_field_value_in_table`: scan the indexed tables in
order; on the first whose first tag matches the field's first tag at the
threshold, register the index (if new) and break; the for-else branch
records the field as unmatched under its python name. -/
def check_field_value_in_table (M : Tag → Tag → ℚ → Bool) (threshold : ℚ) :
    List (TIdx × Entity) → String → Entity → MatchState → MatchState
  | [], py_name, field, s =>
    { s with fields_outside := appendEntry s.fields_outside py_name ((firstTag field).page_number, field.value) }
  | (idx, table) :: rest, py_name, field, s =>
    if M (firstTag field) (firstTag table) threshold then
      if containsKey s.tagged_tables idx then s
      else { s with tagged_tables := s.tagged_tables ++ [(idx, table)] }
    else check_field_value_in_table M threshold rest py_name field s

/-- One iteration of the inner loop of `check_fields`: fields without tags
are skipped silently. -/
def processField (M : Tag → Tag → ℚ → Bool) (threshold : ℚ)
    (tables : List (TIdx × Entity)) (py_name : String)
    (s : MatchState) (field : Entity) : MatchState :=
  if field.tags.isEmpty then s
  else check_field_value_in_table M threshold tables py_name field s

/-- The field loop of `check_fields`: iterate every category of
`document.x` in order, and every field instance under it in order. -/
def processFields (M : Tag → Tag → ℚ → Bool) (threshold : ℚ)
    (tables : List (TIdx × Entity)) (cats : List (String × List Entity))
    (s : MatchState) : MatchState :=
  cats.foldl (fun s c => c.2.foldl (processField M threshold tables c.1) s) s

/-! ### Report Builder: unmatched-fields frame -/

/-- The unmatched-fields `pd.DataFrame`: column labels and, per index label
(python name), the scalar `page` and `field_value` cells. -/
structure UnmatchedDF where
  columns : List String
  rows : List (String × (ℤ × Cell))
deriving DecidableEq

/-- The call `pd.DataFrame(*fields_dict.values(), index=fields_dict.keys(),
columns=['page', 'field_value'])` of `check_fields`, by cases on the number
of dict entries:
* no entries: an empty frame with those columns;
* one entry whose list holds exactly one `(page, value)` pair: a one-row
  frame (the pair is a single row, the key the single index label);
* one entry with `n ≠ 1` pairs: pandas rejects `n` data rows against a
  length-1 index with `ValueError`;
* two or more entries: the second positional argument collides with the
  `index` keyword, `TypeError`. -/
def pdDataFrameStar (d : List (String × List (ℤ × Cell))) : Except PyErr UnmatchedDF :=
  match d with
  | [] => .ok ⟨["page", "field_value"], []⟩
  | [(k, [pv])] => .ok ⟨["page", "field_value"], [(k, pv)]⟩
  | [_] => .error .valueError
  | _ => .error .typeError

/-- `TableAnalyzer.check_fields`: store the document, rebuild the table
index (propagating `KeyError`), run every tagged field through
`check_field_value_in_table` on top of the *existing* `tagged_tables` and
`fields_outside_of_tables` (they are not reset here), and build the
unmatched-fields frame. -/
def check_fields (M : Tag → Tag → ℚ → Bool)
    (aI : List Entity → List (TIdx × Entity))
    (st : AnalyzerState) (doc : Document) :
    Except PyErr (AnalyzerState × UnmatchedDF) :=
  match get_table_dict aI doc st.table_name with
  | .error e => .error e
  | .ok tbls =>
    let ms := processFields M st.threshold tbls doc.x
      ⟨st.tagged_tables, st.fields_outside_of_tables⟩
    match pdDataFrameStar ms.fields_outside with
    | .error e => .error e
    | .ok df =>
      .ok ({ st with
               document := some doc
               tables := some tbls
               tagged_tables := ms.tagged_tables
               fields_outside_of_tables := ms.fields_outside }, df)

/-! ### Aggregator and statistics -/

/-- `TableAnalyzer.collect_tables_values`: reassigns `table_values` and
fills it from the referenced tables, skipping (with a warning) every table
whose grid yields no parsed value. -/
def collect_tables_values (parse : Cell → Option ℚ) :
    List (TIdx × Entity) → List (TIdx × List ℚ)
  | [] => []
  | (idx, table) :: rest =>
    if get_table_values parse (firstTag table).df none = [] then
      collect_tables_values parse rest
    else (idx, get_table_values parse (firstTag table).df none) ::
      collect_tables_values parse rest

/-- Round-half-to-even to an integer, the rounding `np.round` uses
(ties go to the even neighbour, every other value to the nearest
integer). -/
def halfEvenQ (q : ℚ) : ℤ :=
  if q - ⌊q⌋ = 1 / 2 then (if ⌊q⌋ % 2 = 0 then ⌊q⌋ else ⌊q⌋ + 1) else round q

/-- `np.round(q, 2)` over exact rationals. -/
def round2 (q : ℚ) : ℚ :=
  (halfEvenQ (q * 100) : ℚ) / 100

open scoped Classical in
/-- Round-half-to-even to an integer over the reals. -/
noncomputable def halfEvenR (x : ℝ) : ℤ :=
  if x - ⌊x⌋ = 1 / 2 then (if ⌊x⌋ % 2 = 0 then ⌊x⌋ else ⌊x⌋ + 1) else round x

/-- `np.round(x, 2)` over the reals. -/
noncomputable def round2R (x : ℝ) : ℝ :=
  (halfEvenR (x * 100) : ℝ) / 100

/-- `np.average` (unweighted): the arithmetic mean. -/
def np_average (l : List ℚ) : ℚ :=
  l.sum / l.length

/-- `np.std` (default `ddof=0`): the square root of the mean of squared
deviations from the mean. -/
noncomputable def np_std (l : List ℚ) : ℝ :=
  Real.sqrt ((np_average (l.map (fun x => (x - np_average l) ^ 2)) : ℚ) : ℝ)

/-- `TableAnalyzer.calculate_mean`. -/
def calculate_mean (numbers : List ℚ) : ℚ :=
  round2 (np_average numbers)

/-- `TableAnalyzer.calculate_std`. -/
noncomputable def calculate_std (numbers : List ℚ) : ℝ :=
  round2R (np_std numbers)

/-- Population standard deviation as the spec words it: square root of the
sum of squared deviations divided by N (denominator N, not N-1).
Spec-side definition for comparison with `calculate_std`. -/
noncomputable def spec_population_std (l : List ℚ) : ℝ :=
  Real.sqrt ((((l.map (fun x => (x - l.sum / l.length) ^ 2)).sum / l.length : ℚ)) : ℝ)

/-- Sample standard deviation (denominator N-1), the alternative the spec
rules out.  Spec-side definition. -/
noncomputable def spec_sample_std (l : List ℚ) : ℝ :=
  Real.sqrt ((((l.map (fun x => (x - l.sum / l.length) ^ 2)).sum / (l.length - 1) : ℚ)) : ℝ)

/-- The table-statistics `pd.DataFrame` built by `get_table_results` from
the `results` defaultdict: the four columns exist exactly when the loop
body ran at least once (a `defaultdict(list)` only grows a key when it is
first touched), and the column data follow the iteration order of
`table_values`. -/
structure StatsDF where
  columns : List String
  means : List ℚ
  stds : List ℝ
  pages : List ℤ
  tindices : List ℕ

/-- `pd.DataFrame.from_dict(results, orient='columns')` for the defaultdict
of `get_table_results`. -/
noncomputable def buildStats (tv : List (TIdx × List ℚ)) : StatsDF :=
  { columns := if tv = [] then [] else ["mean", "std", "page number", "table index"]
  , means := tv.map (fun p => calculate_mean p.2)
  , stds := tv.map (fun p => calculate_std p.2)
  , pages := tv.map (fun p => p.1.1)
  , tindices := tv.map (fun p => p.1.2) }

/-- `TableAnalyzer.get_table_results`: recompute `table_values` from the
referenced tables, then build the statistics frame. -/
noncomputable def get_table_results (parse : Cell → Option ℚ) (st : AnalyzerState) :
    AnalyzerState × StatsDF :=
  ({ st with table_values := some (collect_tables_values parse st.tagged_tables) },
   buildStats (collect_tables_values parse st.tagged_tables))

/-! ### Boundary layer (`script.py`, table-analysis branch) -/

/-- What `display_document_object` renders for a non-XBRL document. -/
inductive DisplayOutcome where
  | rendered (unmatched : UnmatchedDF) (stats : StatsDF)
  | errorMessage (msg : String)
  | uncaught (e : PyErr)

/-- The message `display_document_object` shows when a `KeyError` escapes
the analysis. -/
def noTablesMsg : String := "The provided document object has no tables under the key"

/-- One full analysis run: `check_fields(doc)` followed by
`get_table_results()`, returning the two reports. -/
noncomputable def runAnalysis (M : Tag → Tag → ℚ → Bool)
    (aI : List Entity → List (TIdx × Entity)) (parse : Cell → Option ℚ)
    (st : AnalyzerState) (doc : Document) :
    Except PyErr (UnmatchedDF × StatsDF) :=
  match check_fields M aI st doc with
  | .error e => .error e
  | .ok (st1, df) => .ok (df, (get_table_results parse st1).2)

/-- Sequential reuse of one analyzer: `check_fields(d1)` and then the full
run on `d2` on the same instance. -/
noncomputable def runTwice (M : Tag → Tag → ℚ → Bool)
    (aI : List Entity → List (TIdx × Entity)) (parse : Cell → Option ℚ)
    (st : AnalyzerState) (d1 d2 : Document) :
    Except PyErr (UnmatchedDF × StatsDF) :=
  match check_fields M aI st d1 with
  | .error e => .error e
  | .ok (st1, _) => runAnalysis M aI parse st1 d2

/-- The table-analysis block of `display_document_object`: a fresh
`TableAnalyzer("tables__table", 0.5)`, the run, and the `except KeyError`
handler (any other exception escapes the handler). -/
noncomputable def display_table_analysis (M : Tag → Tag → ℚ → Bool)
    (aI : List Entity → List (TIdx × Entity)) (parse : Cell → Option ℚ)
    (doc : Document) : DisplayOutcome :=
  match runAnalysis M aI parse (TableAnalyzer_init "tables__table" (1 / 2)) doc with
  | .ok (df, stats) => .rendered df stats
  | .error .keyError => .errorMessage noTablesMsg
  | .error e => .uncaught e

/-- `Except.isOk` spelled locally. -/
def isOkE {ε α : Type} : Except ε α → Bool
  | .ok _ => true
  | .error _ => false

/-! ### Concrete fixtures used by witnesses and counterexamples -/

/-- A matcher collaborator that never matches (no table overlaps any
field region). -/
def Mfalse : Tag → Tag → ℚ → Bool := fun _ _ _ => false

/-- A matcher collaborator that matches exactly when the two tags sit on
the same page. -/
def Mpage : Tag → Tag → ℚ → Bool := fun a b _ => a.page_number = b.page_number

/-- A concrete model of the external `assign_indices_to_tables`
collaborator, following the spec's description of TableIndex assignment:
iterate the tagged tables in order and give each the key
(page number of its first tag, per-page ordinal). -/
def assignIndicesModel (ts : List Entity) : List (TIdx × Entity) :=
  (ts.foldl
    (fun (acc : List (TIdx × Entity) × List ℤ) t =>
      (acc.1 ++ [(((firstTag t).page_number, acc.2.count (firstTag t).page_number), t)],
       acc.2 ++ [(firstTag t).page_number]))
    ([], [])).1

/-- Document with two unmatched "revenue" field instances (pages 1 and 3,
values 100 and 200) and no tables: the spec's unmatched-grouping example. -/
def docRevenue : Document :=
  { id := "doc-revenue"
  , x := [("tables__table", []),
          ("revenue", [⟨[⟨1, []⟩], Cell.num 100⟩, ⟨[⟨3, []⟩], Cell.num 200⟩])] }

/-- First document for the sequential-reuse counterexample: one unmatched
field under "fieldA". -/
def docA : Document :=
  { id := "doc-a"
  , x := [("tables__table", []), ("fieldA", [⟨[⟨1, []⟩], Cell.num 7⟩])] }

/-- Second document for the sequential-reuse counterexample: one unmatched
field under "fieldB". -/
def docB : Document :=
  { id := "doc-b"
  , x := [("tables__table", []), ("fieldB", [⟨[⟨2, []⟩], Cell.num 9⟩])] }

/-- A tag on page `p` with an empty grid. -/
def fixTag (p : ℤ) : Tag := ⟨p, []⟩

/-- A single-tag entity on page `p` with value 0. -/
def fixEnt (p : ℤ) : Entity := ⟨[fixTag p], Cell.num 0⟩

/-! ### Claim C4: numeric extraction -/

/-- Claim C4: `get_table_values` traverses the grid in row-major order,
skips ignored columns, parses each remaining cell, drops not-a-number
cells, and returns exactly the successfully parsed values in encounter
order; on the spec's example grid `[[1, "2.0", "x"], [3, "NaN", 4]]` with
no ignored columns it yields `[1, 2.0, 3, 4]`. -/
theorem get_table_values_extracts_in_order :
    (∀ (parse : Cell → Option ℚ) (grid : List (List Cell)) (ig : Option (List ℕ)),
      get_table_values parse grid ig = extractNumericValues_spec parse grid (ig.getD [])) ∧
    get_table_values sampleParse
      [[Cell.num 1, Cell.str "2.0", Cell.str "x"], [Cell.num 3, Cell.str "NaN", Cell.num 4]]
      none = [1, 2, 3, 4] := by
  constructor
  · intro parse grid ig
    unfold get_table_values extractNumericValues_spec
    rw [get_table_values_foldl parse (ig.getD []) grid []]
    simp
  · decide

/-! ### Claims C3 and C8: first-match-wins and idempotent registration -/

lemma cfvit_first_match (M : Tag → Tag → ℚ → Bool) (θ : ℚ) (i : TIdx) (t : Entity)
    (n : String) (f : Entity) :
    ∀ (pre : List (TIdx × Entity)),
      (∀ p ∈ pre, M (firstTag f) (firstTag p.2) θ = false) →
      M (firstTag f) (firstTag t) θ = true →
      ∀ (post : List (TIdx × Entity)) (s : MatchState),
        check_field_value_in_table M θ (pre ++ (i, t) :: post) n f s =
          ⟨insertIfAbsent s.tagged_tables i t, s.fields_outside⟩
  | [], _, hm, post, s => by
    simp only [List.nil_append, check_field_value_in_table, hm, if_true, insertIfAbsent]
    split <;> rfl
  | (j, u) :: pre, hpre, hm, post, s => by
    have hju : M (firstTag f) (firstTag u) θ = false := hpre (j, u) (by simp)
    simp only [List.cons_append, check_field_value_in_table, hju, Bool.false_eq_true,
      if_false]
    exact cfvit_first_match M θ i t n f pre (fun p hp => hpre p (by simp [hp])) hm post s

/-- Claim C3: the indexed tables are scanned in order; the first table whose
first tag matches the field's first tag is recorded as referenced (if new)
and scanning stops — the outcome does not depend on the tables after the
first match, even if they would also match. -/
theorem first_match_wins (M : Tag → Tag → ℚ → Bool) (θ : ℚ) (i : TIdx) (t : Entity)
    (n : String) (f : Entity) (pre post : List (TIdx × Entity)) (s : MatchState)
    (hpre : ∀ p ∈ pre, M (firstTag f) (firstTag p.2) θ = false)
    (hm : M (firstTag f) (firstTag t) θ = true) :
    check_field_value_in_table M θ (pre ++ (i, t) :: post) n f s =
      ⟨insertIfAbsent s.tagged_tables i t, s.fields_outside⟩ ∧
    ∀ post', check_field_value_in_table M θ (pre ++ (i, t) :: post') n f s =
      check_field_value_in_table M θ (pre ++ (i, t) :: post) n f s :=
  ⟨cfvit_first_match M θ i t n f pre hpre hm post s,
   fun post' => (cfvit_first_match M θ i t n f pre hpre hm post' s).trans
     (cfvit_first_match M θ i t n f pre hpre hm post s).symm⟩

/-- Witness for C3: a field on page 2 against tables on pages 5, 2, 2 — the
page-2 table at index (2,0) is the first match; replacing the tail table by
a different (also matching) one does not change the outcome. -/
theorem first_match_wins_witness :
    check_field_value_in_table Mpage (1 / 2)
        [((5, 0), fixEnt 5), ((2, 0), fixEnt 2), ((2, 1), fixEnt 2)] "f" (fixEnt 2) ⟨[], []⟩ =
      ⟨insertIfAbsent [] (2, 0) (fixEnt 2), []⟩ ∧
    check_field_value_in_table Mpage (1 / 2)
        [((5, 0), fixEnt 5), ((2, 0), fixEnt 2), ((9, 9), fixEnt 2)] "f" (fixEnt 2) ⟨[], []⟩ =
      check_field_value_in_table Mpage (1 / 2)
        [((5, 0), fixEnt 5), ((2, 0), fixEnt 2), ((2, 1), fixEnt 2)] "f" (fixEnt 2) ⟨[], []⟩ :=
  ⟨(first_match_wins Mpage (1 / 2) (2, 0) (fixEnt 2) "f" (fixEnt 2)
      [((5, 0), fixEnt 5)] [((2, 1), fixEnt 2)] ⟨[], []⟩ (by decide) (by decide)).1,
   (first_match_wins Mpage (1 / 2) (2, 0) (fixEnt 2) "f" (fixEnt 2)
      [((5, 0), fixEnt 5)] [((2, 1), fixEnt 2)] ⟨[], []⟩ (by decide) (by decide)).2
     [((9, 9), fixEnt 2)]⟩

/-- Claim C8: once an index sits in `tagged_tables`, a later field matching
the same table leaves the whole match state unchanged — the index is not
re-added, its table is not replaced, and the field is still not recorded
as unmatched. -/
theorem referenced_registration_idempotent (M : Tag → Tag → ℚ → Bool) (θ : ℚ)
    (i : TIdx) (t : Entity) (n : String) (f : Entity)
    (pre post : List (TIdx × Entity)) (s : MatchState)
    (hpre : ∀ p ∈ pre, M (firstTag f) (firstTag p.2) θ = false)
    (hm : M (firstTag f) (firstTag t) θ = true)
    (hin : containsKey s.tagged_tables i = true) :
    check_field_value_in_table M θ (pre ++ (i, t) :: post) n f s = s := by
  rw [cfvit_first_match M θ i t n f pre hpre hm post s]
  simp [insertIfAbsent, hin]

/-- Witness for C8: the page-2 table at index (2,0) is already referenced
(by a possibly different stored table) and the match state survives a
second matching field untouched. -/
theorem referenced_registration_idempotent_witness :
    containsKey [((2, 0), fixEnt 7)] ((2 : ℤ), (0 : ℕ)) = true ∧
    check_field_value_in_table Mpage (1 / 2)
        [((5, 0), fixEnt 5), ((2, 0), fixEnt 2)] "f" (fixEnt 2)
        ⟨[((2, 0), fixEnt 7)], [("g", [(4, Cell.num 1)])]⟩ =
      ⟨[((2, 0), fixEnt 7)], [("g", [(4, Cell.num 1)])]⟩ :=
  ⟨by decide,
   referenced_registration_idempotent Mpage (1 / 2) (2, 0) (fixEnt 2) "f" (fixEnt 2)
     [((5, 0), fixEnt 5)] [] ⟨[((2, 0), fixEnt 7)], [("g", [(4, Cell.num 1)])]⟩
     (by decide) (by decide) (by decide)⟩

/-! ### Claim C1: shape of the unmatched-fields report -/

/-- Claim C1 (code bug): the per-category grouping does accumulate both
"revenue" instances under one key in insertion order, but the report
construction `pd.DataFrame(*fields_dict.values(), ...)` then unpacks that
single two-element list as two positional data rows against a one-element
index, so `check_fields` raises `ValueError` on the spec's own example
instead of returning the grouped one-row report. -/
theorem unmatched_report_crashes_on_grouping :
    (processFields Mfalse (1 / 2) [] docRevenue.x ⟨[], []⟩).fields_outside =
      [("revenue", [(1, Cell.num 100), (3, Cell.num 200)])] ∧
    check_fields Mfalse assignIndicesModel
      (TableAnalyzer_init "tables__table" (1 / 2)) docRevenue =
      .error .valueError := by
  constructor
  · rfl
  · rfl

/-! ### Claim C2: sequential reuse of one analyzer -/

/-- Counterexample to C2: after a run on `docA` (one unmatched field), the
reused analyzer's run on `docB` differs from a fresh analyzer's run on
`docB` — the leftover `fields_outside_of_tables` entry makes the reused
report construction raise while the fresh one succeeds. -/
theorem analyzer_reuse_differs_from_fresh :
    runTwice Mfalse assignIndicesModel sampleParse
      (TableAnalyzer_init "tables__table" (1 / 2)) docA docB ≠
    runAnalysis Mfalse assignIndicesModel sampleParse
      (TableAnalyzer_init "tables__table" (1 / 2)) docB := by
  intro h
  have h1 : isOkE (runTwice Mfalse assignIndicesModel sampleParse
      (TableAnalyzer_init "tables__table" (1 / 2)) docA docB) = false := rfl
  have h2 : isOkE (runAnalysis Mfalse assignIndicesModel sampleParse
      (TableAnalyzer_init "tables__table" (1 / 2)) docB) = true := rfl
  rw [h, h2] at h1
  exact Bool.noConfusion h1

/-- Claim C2 (amended): `document`, `tables` and `table_values` are
reassigned during a run, but `tagged_tables` and
`fields_outside_of_tables` are carried over; a reused analyzer therefore
reproduces the fresh analyzer's reports exactly when the carried-over
state is empty. -/
theorem clean_state_run_equals_fresh (M : Tag → Tag → ℚ → Bool)
    (aI : List Entity → List (TIdx × Entity)) (parse : Cell → Option ℚ)
    (name : String) (θ : ℚ) (st : AnalyzerState) (d : Document)
    (h1 : st.tagged_tables = []) (h2 : st.fields_outside_of_tables = [])
    (h3 : st.table_name = name) (h4 : st.threshold = θ) :
    runAnalysis M aI parse st d =
      runAnalysis M aI parse (TableAnalyzer_init name θ) d := by
  obtain ⟨tv, tt, tb, fo, nm, th, dc⟩ := st
  simp only at h1 h2 h3 h4
  subst h1; subst h2; subst h3; subst h4
  unfold runAnalysis check_fields TableAnalyzer_init
  simp only
  cases hgd : get_table_dict aI d nm with
  | error e => simp [hgd]
  | ok tbls =>
    simp only [hgd]
    cases hdf : pdDataFrameStar
        (processFields M th tbls d.x ⟨[], []⟩).fields_outside with
    | error e => simp [hdf]
    | ok df => simp [hdf, get_table_results]

/-- State of an analyzer that already ran on `docA` and whose per-run
state was manually cleared, used to witness the amended C2. -/
def stWitness : AnalyzerState :=
  { table_values := some [((1, 0), [1])]
  , tagged_tables := []
  , tables := some []
  , fields_outside_of_tables := []
  , table_name := "tables__table"
  , threshold := 1 / 2
  , document := some docA }

/-- Witness for the amended C2 at a concrete carried-over state. -/
theorem clean_state_run_equals_fresh_witness :
    stWitness.tagged_tables = [] ∧ stWitness.fields_outside_of_tables = [] ∧
    stWitness.table_name = "tables__table" ∧ stWitness.threshold = 1 / 2 ∧
    runAnalysis Mfalse assignIndicesModel sampleParse stWitness docB =
      runAnalysis Mfalse assignIndicesModel sampleParse
        (TableAnalyzer_init "tables__table" (1 / 2)) docB :=
  ⟨rfl, rfl, rfl, rfl,
   clean_state_run_equals_fresh Mfalse assignIndicesModel sampleParse
     "tables__table" (1 / 2) stWitness docB rfl rfl rfl rfl⟩

/-! ### Claim C5: missing table category -/

/-- Claim C5: when `document.x` has no entry under the configured table
category name, `check_fields` raises `KeyError` (a `LookupError` subclass)
before building any report, and the boundary layer catches it and renders
the domain-specific message instead of a report. -/
theorem missing_category_aborts (M : Tag → Tag → ℚ → Bool)
    (aI : List Entity → List (TIdx × Entity)) (parse : Cell → Option ℚ)
    (doc : Document) (st : AnalyzerState)
    (h : alookup doc.x st.table_name = none)
    (hd : alookup doc.x "tables__table" = none) :
    check_fields M aI st doc = .error .keyError ∧
    display_table_analysis M aI parse doc = .errorMessage noTablesMsg := by
  constructor
  · simp [check_fields, get_table_dict, h]
  · simp [display_table_analysis, runAnalysis, check_fields, get_table_dict,
      TableAnalyzer_init, hd]

/-- Document with no table category at all. -/
def docNoTables : Document :=
  { id := "doc-no-tables"
  , x := [("revenue", [⟨[⟨1, []⟩], Cell.num 100⟩])] }

/-- Witness for C5 on a document whose only category is "revenue". -/
theorem missing_category_aborts_witness :
    alookup docNoTables.x (TableAnalyzer_init "tables__table" (1 / 2)).table_name = none ∧
    check_fields Mfalse assignIndicesModel
      (TableAnalyzer_init "tables__table" (1 / 2)) docNoTables = .error .keyError ∧
    display_table_analysis Mfalse assignIndicesModel sampleParse docNoTables =
      .errorMessage noTablesMsg :=
  ⟨rfl,
   missing_category_aborts Mfalse assignIndicesModel sampleParse docNoTables
     (TableAnalyzer_init "tables__table" (1 / 2)) rfl rfl⟩

/-! ### Claim C7: untagged tables never indexed -/

lemma cfvit_tagged_mem (M : Tag → Tag → ℚ → Bool) (θ : ℚ) (n : String) (f : Entity) :
    ∀ (tables : List (TIdx × Entity)) (s : MatchState) (p : TIdx × Entity),
      p ∈ (check_field_value_in_table M θ tables n f s).tagged_tables →
      p ∈ s.tagged_tables ∨ p ∈ tables
  | [], s, p => by
    simp [check_field_value_in_table]
  | (j, u) :: rest, s, p => by
    by_cases hm : M (firstTag f) (firstTag u) θ = true
    · simp only [check_field_value_in_table, hm, if_true]
      by_cases hin : containsKey s.tagged_tables j = true
      · simp only [hin, if_true]
        exact fun h => .inl h
      · simp only [hin, if_false]
        intro h
        rcases List.mem_append.1 h with h | h
        · exact .inl h
        · simp only [List.mem_singleton] at h
          exact .inr (by simp [h])
    · simp only [check_field_value_in_table, hm, if_false]
      intro h
      rcases cfvit_tagged_mem M θ n f rest s p h with h | h
      · exact .inl h
      · exact .inr (by simp [h])

lemma fields_foldl_tagged_mem (M : Tag → Tag → ℚ → Bool) (θ : ℚ)
    (tables : List (TIdx × Entity)) (n : String) :
    ∀ (fs : List Entity) (s : MatchState) (p : TIdx × Entity),
      p ∈ (fs.foldl (processField M θ tables n) s).tagged_tables →
      p ∈ s.tagged_tables ∨ p ∈ tables
  | [], s, p => fun h => .inl h
  | f :: fs, s, p => fun h => by
    rcases fields_foldl_tagged_mem M θ tables n fs (processField M θ tables n s f) p h with
      h | h
    · unfold processField at h
      split at h
      · exact .inl h
      · exact cfvit_tagged_mem M θ n f tables s p h
    · exact .inr h

lemma processFields_tagged_mem (M : Tag → Tag → ℚ → Bool) (θ : ℚ)
    (tables : List (TIdx × Entity)) :
    ∀ (cats : List (String × List Entity)) (s : MatchState) (p : TIdx × Entity),
      p ∈ (processFields M θ tables cats s).tagged_tables →
      p ∈ s.tagged_tables ∨ p ∈ tables
  | [], s, p => fun h => .inl h
  | c :: cats, s, p => fun h => by
    rcases processFields_tagged_mem M θ tables cats
        (c.2.foldl (processField M θ tables c.1) s) p h with h | h
    · exact fields_foldl_tagged_mem M θ tables c.1 c.2 s p h
    · exact .inr h

/-- Claim C7: tables with an empty tag list are dropped before index
assignment, so (as long as the external index assigner only returns tables
it was given) every table in the index mapping carries at least one tag,
and so does every table recorded as referenced during a fresh run. -/
theorem untagged_tables_excluded (aI : List Entity → List (TIdx × Entity))
    (M : Tag → Tag → ℚ → Bool) (doc : Document) (name : String) (θ : ℚ)
    (ts : List Entity)
    (hts : alookup doc.x name = some ts)
    (hc : ∀ p ∈ aI (ts.filter (fun t => !t.tags.isEmpty)),
      p.2 ∈ ts.filter (fun t => !t.tags.isEmpty)) :
    (∀ tbls, get_table_dict aI doc name = .ok tbls → ∀ p ∈ tbls, p.2.tags ≠ []) ∧
    (∀ st' df, check_fields M aI (TableAnalyzer_init name θ) doc = .ok (st', df) →
      ∀ p ∈ st'.tagged_tables, p.2.tags ≠ []) := by
  have key : ∀ p ∈ aI (ts.filter (fun t => !t.tags.isEmpty)), p.2.tags ≠ [] := by
    intro p hp
    have := List.of_mem_filter (hc p hp)
    simpa [List.isEmpty_iff] using this
  constructor
  · intro tbls htbls
    rw [get_table_dict, hts] at htbls
    cases htbls
    exact key
  · intro st' df h
    rw [check_fields] at h
    simp only [TableAnalyzer_init, get_table_dict, hts] at h
    cases hdf : pdDataFrameStar
        (processFields M θ (aI (ts.filter (fun t => !t.tags.isEmpty)))
          doc.x ⟨[], []⟩).fields_outside with
    | error e =>
      simp only [hdf] at h
      exact Except.noConfusion h
    | ok df' =>
      simp only [hdf] at h
      cases h
      intro p hp
      simp only at hp
      rcases processFields_tagged_mem M θ _ doc.x ⟨[], []⟩ p hp with hmem | hmem
      · simp at hmem
      · exact key p hmem

/-- Witness document for C7: one untagged table and one tagged table under
the table category. -/
def docMixedTables : Document :=
  { id := "doc-mixed"
  , x := [("tables__table", [⟨[], Cell.num 0⟩, fixEnt 1]), ("revenue", [fixEnt 1])] }

/-- Witness for C7 at a concrete document: the untagged table is absent
from the index and from the referenced tables of a fresh run. -/
theorem untagged_tables_excluded_witness :
    alookup docMixedTables.x "tables__table" =
      some [⟨[], Cell.num 0⟩, fixEnt 1] ∧
    (∀ tbls, get_table_dict assignIndicesModel docMixedTables "tables__table" = .ok tbls →
      ∀ p ∈ tbls, p.2.tags ≠ []) ∧
    (∀ st' df, check_fields Mpage assignIndicesModel
        (TableAnalyzer_init "tables__table" (1 / 2)) docMixedTables = .ok (st', df) →
      ∀ p ∈ st'.tagged_tables, p.2.tags ≠ []) :=
  ⟨rfl,
   untagged_tables_excluded assignIndicesModel Mpage docMixedTables "tables__table"
     (1 / 2) [⟨[], Cell.num 0⟩, fixEnt 1] rfl (by decide)⟩

/-! ### Claims C9 and C10: aggregation skips and the empty frame -/

lemma collect_skip_empty (parse : Cell → Option ℚ) (idx : TIdx) (T : Entity)
    (h : get_table_values parse (firstTag T).df none = []) :
    ∀ (pre post : List (TIdx × Entity)),
      collect_tables_values parse (pre ++ (idx, T) :: post) =
        collect_tables_values parse (pre ++ post)
  | [], post => by
    simp only [List.nil_append, collect_tables_values, h, if_true]
  | (j, u) :: pre, post => by
    simp only [List.cons_append, collect_tables_values, List.append_eq]
    rw [collect_skip_empty parse idx T h pre post]

lemma collect_keys_sub (parse : Cell → Option ℚ) :
    ∀ (l : List (TIdx × Entity)) (p : TIdx × List ℚ),
      p ∈ collect_tables_values parse l → p.1 ∈ l.map Prod.fst
  | [], p => by simp [collect_tables_values]
  | (j, u) :: rest, p => by
    simp only [collect_tables_values, List.map_cons]
    split
    · intro h
      exact List.mem_cons_of_mem _ (collect_keys_sub parse rest p h)
    · intro h
      rcases List.mem_cons.1 h with h | h
      · subst h; exact List.mem_cons_self _ _
      · exact List.mem_cons_of_mem _ (collect_keys_sub parse rest p h)

lemma containsKey_iff_mem {κ ν : Type} [DecidableEq κ] :
    ∀ (l : List (κ × ν)) (a : κ), containsKey l a = true ↔ a ∈ l.map Prod.fst
  | [], a => by simp [containsKey, alookup]
  | (k, v) :: rest, a => by
    by_cases hk : k = a
    · subst hk
      simp [containsKey, alookup]
    · simp only [containsKey, alookup, if_neg hk, List.map_cons, List.mem_cons]
      rw [← containsKey, containsKey_iff_mem rest a]
      simp [Ne.symm hk]

/-- Claim C9: a referenced table whose grid yields no parsed value gets no
entry in `table_values` (so no row in the statistics frame), and the
aggregation of the remaining tables is exactly what it would be without
that table. -/
theorem all_nan_table_contributes_nothing (parse : Cell → Option ℚ) (idx : TIdx)
    (T : Entity) (pre post : List (TIdx × Entity))
    (h : get_table_values parse (firstTag T).df none = []) :
    collect_tables_values parse (pre ++ (idx, T) :: post) =
      collect_tables_values parse (pre ++ post) ∧
    (idx ∉ (pre ++ post).map Prod.fst →
      containsKey (collect_tables_values parse (pre ++ (idx, T) :: post)) idx = false) ∧
    (∀ st : AnalyzerState, st.tagged_tables = pre ++ (idx, T) :: post →
      (get_table_results parse st).2 =
        buildStats (collect_tables_values parse (pre ++ post))) := by
  refine ⟨collect_skip_empty parse idx T h pre post, ?_, ?_⟩
  · intro hidx
    rw [collect_skip_empty parse idx T h pre post, Bool.eq_false_iff]
    intro hck
    have hmem := (containsKey_iff_mem _ idx).1 hck
    rcases List.mem_map.1 hmem with ⟨p, hp, hfst⟩
    exact hidx (hfst ▸ collect_keys_sub parse (pre ++ post) p hp)
  · intro st hst
    rw [get_table_results]
    simp only [hst, collect_skip_empty parse idx T h pre post]

/-- A referenced table whose only cell is the unparseable string "x". -/
def tableAllNaN : Entity := ⟨[⟨7, [[Cell.str "x"]]⟩], Cell.num 0⟩

/-- A referenced table with a single numeric cell 5 on page 1. -/
def tableFive : Entity := ⟨[⟨1, [[Cell.num 5]]⟩], Cell.num 0⟩

/-- Witness for C9: with tables `[(1,0) ↦ tableFive, (7,0) ↦ tableAllNaN]`,
the all-NaN table is dropped from `table_values` and the aggregation
equals the one without it. -/
theorem all_nan_table_contributes_nothing_witness :
    get_table_values sampleParse (firstTag tableAllNaN).df none = [] ∧
    collect_tables_values sampleParse [((1, 0), tableFive), ((7, 0), tableAllNaN)] =
      collect_tables_values sampleParse [((1, 0), tableFive)] ∧
    containsKey (collect_tables_values sampleParse
      [((1, 0), tableFive), ((7, 0), tableAllNaN)]) ((7 : ℤ), (0 : ℕ)) = false :=
  ⟨rfl,
   (all_nan_table_contributes_nothing sampleParse (7, 0) tableAllNaN
     [((1, 0), tableFive)] [] rfl).1,
   (all_nan_table_contributes_nothing sampleParse (7, 0) tableAllNaN
     [((1, 0), tableFive)] [] rfl).2.1 (by decide)⟩

/-- Claim C10: when no referenced table yields any parsed value, the
statistics frame has no columns at all — `mean`, `std`, `page number` and
`table index` are absent, not present with zero rows. -/
theorem empty_table_values_empty_frame (parse : Cell → Option ℚ)
    (st : AnalyzerState)
    (h : collect_tables_values parse st.tagged_tables = []) :
    (get_table_results parse st).2 = ⟨[], [], [], [], []⟩ ∧
    "mean" ∉ (get_table_results parse st).2.columns ∧
    "std" ∉ (get_table_results parse st).2.columns ∧
    "page number" ∉ (get_table_results parse st).2.columns ∧
    "table index" ∉ (get_table_results parse st).2.columns := by
  have hb : (get_table_results parse st).2 = (⟨[], [], [], [], []⟩ : StatsDF) := by
    rw [get_table_results]
    simp [buildStats, h]
  refine ⟨hb, ?_, ?_, ?_, ?_⟩ <;> rw [hb] <;> simp

/-- Witness for C10: a fresh analyzer (no referenced tables) yields the
fully empty statistics frame. -/
theorem empty_table_values_empty_frame_witness :
    collect_tables_values sampleParse
      (TableAnalyzer_init "tables__table" (1 / 2)).tagged_tables = [] ∧
    (get_table_results sampleParse (TableAnalyzer_init "tables__table" (1 / 2))).2 =
      ⟨[], [], [], [], []⟩ :=
  ⟨rfl,
   (empty_table_values_empty_frame sampleParse
     (TableAnalyzer_init "tables__table" (1 / 2)) rfl).1⟩

/-! ### Claim C6: mean and population standard deviation -/

lemma np_std_eq_spec (l : List ℚ) : np_std l = spec_population_std l := by
  simp [np_std, spec_population_std, np_average]

lemma round2R_sqrt_eval (c : ℝ) (r : ℤ) (hc : 0 ≤ c)
    (hlo' : 0 ≤ (r : ℝ) - 1 / 2)
    (hlo : ((r : ℝ) - 1 / 2) ^ 2 ≤ c * 10000)
    (hhi : c * 10000 < ((r : ℝ) + 1 / 2) ^ 2)
    (hne : c * 10000 ≠ ((r : ℝ) - 1 / 2) ^ 2) :
    round2R (Real.sqrt c) = (r : ℝ) / 100 := by
  have key : halfEvenR (Real.sqrt c * 100) = r := by
    set x := Real.sqrt c * 100 with hxdef
    have hx2 : x ^ 2 = c * 10000 := by
      rw [hxdef, mul_pow, Real.sq_sqrt hc]; ring
    have hxnn : 0 ≤ x := mul_nonneg (Real.sqrt_nonneg c) (by norm_num)
    have hlb : (r : ℝ) - 1 / 2 ≤ x := by nlinarith
    have hub : x < (r : ℝ) + 1 / 2 := by nlinarith
    have hneq : x ≠ (r : ℝ) - 1 / 2 := by
      intro hh
      exact hne (by rw [← hx2, hh])
    have hlb' : (r : ℝ) - 1 / 2 < x := lt_of_le_of_ne hlb (Ne.symm hneq)
    have hrd : round x = r := by
      rw [round_eq, Int.floor_eq_iff]
      constructor
      · linarith
      · linarith
    unfold halfEvenR
    by_cases hhalf : x - ⌊x⌋ = 1 / 2
    · exfalso
      have hfl_le : (⌊x⌋ : ℝ) ≤ x := Int.floor_le x
      have hfl_gt : x - 1 < (⌊x⌋ : ℝ) := Int.sub_one_lt_floor x
      have hup : ⌊x⌋ < r + 1 := by
        have h1 : (⌊x⌋ : ℝ) < (r : ℝ) + 1 := by linarith
        exact_mod_cast h1
      have hdown : r - 2 < ⌊x⌋ := by
        have h1 : (r : ℝ) - 2 < (⌊x⌋ : ℝ) := by linarith
        exact_mod_cast h1
      have hcases : ⌊x⌋ = r - 1 ∨ ⌊x⌋ = r := by omega
      rcases hcases with hh | hh
      · rw [hh] at hhalf
        push_cast at hhalf
        exact hneq (by linarith)
      · rw [hh] at hhalf
        linarith
    · rw [if_neg hhalf]
      exact hrd
  unfold round2R
  rw [key]

/-- Claim C6: for nonempty value lists the reported statistics are
`mean = round(average, 2)` and `std = round(population standard
deviation, 2)` with denominator N; at the spec's example `[1,2,3,4]` this
gives mean 2.5 and std 1.12, whereas the sample deviation (denominator
N-1) would round to 1.29. -/
theorem statistics_mean_and_population_std (l : List ℚ) (hl : l ≠ []) :
    calculate_mean l = round2 (l.sum / l.length) ∧
    calculate_std l = round2R (spec_population_std l) ∧
    (l = [1, 2, 3, 4] →
      calculate_mean l = 5 / 2 ∧ calculate_std l = 112 / 100 ∧
      round2R (spec_sample_std l) = 129 / 100) := by
  refine ⟨rfl, ?_, ?_⟩
  · unfold calculate_std
    rw [np_std_eq_spec]
  · intro hl4
    subst hl4
    refine ⟨?_, ?_, ?_⟩
    · show round2 (np_average [1, 2, 3, 4]) = 5 / 2
      have hmean : np_average [1, 2, 3, 4] = 5 / 2 := by norm_num [np_average]
      rw [hmean]
      unfold round2 halfEvenQ
      norm_num
    · have hstd : np_std [1, 2, 3, 4] = Real.sqrt ((5 : ℝ) / 4) := by
        unfold np_std np_average
        norm_num
      unfold calculate_std
      rw [hstd, round2R_sqrt_eval ((5 : ℝ) / 4) 112 (by norm_num) (by norm_num)
        (by norm_num) (by norm_num) (by norm_num)]
      norm_num
    · have hsam : spec_sample_std [1, 2, 3, 4] = Real.sqrt ((5 : ℝ) / 3) := by
        unfold spec_sample_std
        norm_num
      rw [hsam, round2R_sqrt_eval ((5 : ℝ) / 3) 129 (by norm_num) (by norm_num)
        (by norm_num) (by norm_num) (by norm_num)]
      norm_num

/-- Witness for C6 at the spec's example list. -/
theorem statistics_mean_and_population_std_witness :
    ([1, 2, 3, 4] : List ℚ) ≠ [] ∧
    calculate_mean [1, 2, 3, 4] = 5 / 2 ∧ calculate_std [1, 2, 3, 4] = 112 / 100 ∧
    round2R (spec_sample_std [1, 2, 3, 4]) = 129 / 100 :=
  ⟨by decide, (statistics_mean_and_population_std [1, 2, 3, 4] (by decide)).2.2 rfl⟩
